import Mathlib

/-!
# Verification of the mcp-rag-server repository

A shallow embedding of the request handlers of the repository:

* `src/mcp-rag-server/server.py` — the MCP tool server (`upload_document`,
  `query_document`, `delete_session`, `get_session_info` branches of
  `call_tool`, and the helpers `_session_collection`, `_strip_think`,
  `_stuff_context`, `_rag_prompt`);
* `src/GianPDF/model deployment/server.py` — the FastAPI HTTP server
  (`POST /upload` = `upload_pdf`, `POST /ask` = `ask`, and the same helpers).

Python strings are modelled as `List Char` (`PyStr`).  The external world the
handlers touch is split in two:

* `RagState` — the parts the handlers themselves read *and* write: the set of
  saved PDFs in the upload directory (one file `<session_id>.pdf` per
  session) and the Chroma vector collections with their stored chunk counts.
  Building a `Chroma` handle for a collection (`_build_vectordb`) raises
  exactly when the collection is absent (this is how the code itself reads
  the exception: it logs "Collection not found" and answers "Session not
  found"); `delete_collection` likewise succeeds exactly when the collection
  exists.  `Chroma.from_documents` creates the session's collection holding
  the indexed chunks.
* `Env` — pure oracles for the external libraries the handlers only read:
  PDF loading (`PyPDFLoader(...).load()`), text splitting
  (`splitter.split_documents`), similarity retrieval
  (`retriever.get_relevant_documents`), the LLM (`llm.invoke(...).content`),
  `uuid.uuid4().hex[:12]`, `stat` fields, and the text of the exception
  raised by a failing `_build_vectordb`.

Each handler returns its shaped response, the new `RagState`, and the list of
external side effects it performed, in order.
-/

namespace RagServer

/-- A Python `str`, modelled as its list of characters. -/
abbrev PyStr := List Char

/-- The characters of a Lean string literal, as a `PyStr`. -/
def str (s : String) : PyStr := s.data

/-- Python `str.lower()` (ASCII case mapping, which is all the code relies on). -/
def pyLower (s : PyStr) : PyStr := s.map Char.toLower

/-- The whitespace characters recognised by Python's `str.strip()` / `\s`
(restricted to ASCII, which is all the code relies on). -/
def isPySpace (c : Char) : Bool :=
  c = ' ' || c = '\t' || c = '\n' || c = '\r' || c = '\x0b' || c = '\x0c'

/-- Python `str.strip()` with no arguments: drop whitespace at both ends. -/
def pyStrip (s : PyStr) : PyStr :=
  ((s.dropWhile isPySpace).reverse.dropWhile isPySpace).reverse

/-- Python `str.split("\n")`: split at every newline, keeping empty pieces. -/
def splitOnNL : PyStr → List PyStr
  | [] => [[]]
  | c :: cs =>
    if c = '\n' then [] :: splitOnNL cs
    else
      match splitOnNL cs with
      | [] => [[c]]
      | l :: rest => (c :: l) :: rest

/-- Worker for `pySplitlines`; `acc` holds the current line reversed. -/
def pySplitlinesGo : PyStr → PyStr → List PyStr
  | [], acc => [acc.reverse]
  | '\r' :: '\n' :: rest, acc =>
    acc.reverse :: (if rest = [] then [] else pySplitlinesGo rest [])
  | '\n' :: rest, acc =>
    acc.reverse :: (if rest = [] then [] else pySplitlinesGo rest [])
  | '\r' :: rest, acc =>
    acc.reverse :: (if rest = [] then [] else pySplitlinesGo rest [])
  | '\x0b' :: rest, acc =>
    acc.reverse :: (if rest = [] then [] else pySplitlinesGo rest [])
  | '\x0c' :: rest, acc =>
    acc.reverse :: (if rest = [] then [] else pySplitlinesGo rest [])
  | '\x1c' :: rest, acc =>
    acc.reverse :: (if rest = [] then [] else pySplitlinesGo rest [])
  | '\x1d' :: rest, acc =>
    acc.reverse :: (if rest = [] then [] else pySplitlinesGo rest [])
  | '\x1e' :: rest, acc =>
    acc.reverse :: (if rest = [] then [] else pySplitlinesGo rest [])
  | c :: rest, acc => pySplitlinesGo rest (c :: acc)

/-- Python `str.splitlines()`: split at the ASCII line boundaries
(`\r\n` counting as one), with no trailing empty line for a trailing
terminator and `[]` for the empty string. -/
def pySplitlines : PyStr → List PyStr
  | [] => []
  | s => pySplitlinesGo s []

/-- `isCIPrefix pat s`: the lowercase pattern `pat` is a case-insensitive
prefix of `s`. -/
def isCIPrefix : PyStr → PyStr → Bool
  | [], _ => true
  | _ :: _, [] => false
  | p :: ps, c :: cs => p = Char.toLower c && isCIPrefix ps cs

/-- `ciAfter pat s`: if the lowercase pattern `pat` is a case-insensitive
prefix of `s`, the remainder of `s` after it. -/
def ciAfter : PyStr → PyStr → Option PyStr
  | [], s => some s
  | _ :: _, [] => none
  | p :: ps, c :: cs => if p = Char.toLower c then ciAfter ps cs else none

/-- The literal characters of the opening tag `<think>`. -/
def thinkOpenTag : PyStr := str "<think>"

/-- The literal characters of the closing tag `</think>`. -/
def thinkCloseTag : PyStr := str "</think>"

/-- Scan for the earliest case-insensitive occurrence of `</think>`;
on success return the remainder after it (the non-greedy `.*?</think>`). -/
def findCloseTag : PyStr → Option PyStr
  | [] => none
  | c :: cs =>
    if isCIPrefix thinkCloseTag (c :: cs) then some (List.drop 8 (c :: cs))
    else findCloseTag cs

/-- One left-to-right pass of
`re.sub(r"<think>.*?</think>", "", text, flags=re.DOTALL | re.IGNORECASE)`:
at each position, if `<think>` matches and a `</think>` occurs later, delete
through the earliest such `</think>` and continue scanning after it; if
`<think>` matches but no `</think>` follows anywhere, no further match is
possible and the rest is kept.  `fuel` only funds the recursion; the scan
consumes at least one character per step, so `s.length` is always enough. -/
def subThinkGo : Nat → PyStr → PyStr
  | 0, s => s
  | _ + 1, [] => []
  | fuel + 1, c :: cs =>
    if isCIPrefix thinkOpenTag (c :: cs) then
      match findCloseTag (List.drop 7 (c :: cs)) with
      | some rest => subThinkGo fuel rest
      | none => c :: cs
    else c :: subThinkGo fuel cs

/-- The first substitution of `_strip_think`: remove the non-greedy,
case-insensitive, dot-matches-newline `<think>.*?</think>` matches. -/
def subThink (s : PyStr) : PyStr := subThinkGo s.length s

/-- `[- ]?` followed by the given lowercase pattern, with the regex engine's
backtracking: prefer consuming a `-` or a space, fall back to consuming
nothing. -/
def optSepThen (pat : PyStr) (s : PyStr) : Option PyStr :=
  match s with
  | c :: cs =>
    if c = '-' || c = ' ' then
      match ciAfter pat cs with
      | some r => some r
      | none => ciAfter pat (c :: cs)
    else ciAfter pat (c :: cs)
  | [] => ciAfter pat []

/-- The keyword alternation
`(thought|reasoning|deliberate|chain[- ]?of[- ]?thought)` of the second
substitution of `_strip_think`; the alternatives start with distinct
letters, so first-match is exact.  Returns the remainder after the keyword. -/
def keywordAfter (s : PyStr) : Option PyStr :=
  match ciAfter (str "thought") s with
  | some r => some r
  | none =>
    match ciAfter (str "reasoning") s with
    | some r => some r
    | none =>
      match ciAfter (str "deliberate") s with
      | some r => some r
      | none =>
        match ciAfter (str "chain") s with
        | some r =>
          match optSepThen (str "of") r with
          | some r2 => optSepThen (str "thought") r2
          | none => none
        | none => none

/-- Whether a single line matches
`(?im)^\s*(thought|reasoning|deliberate|chain[- ]?of[- ]?thought)\s*:.*$`
(the trailing `.*$` always matches within a line). -/
def thoughtLine (ln : PyStr) : Bool :=
  match keywordAfter (ln.dropWhile isPySpace) with
  | some rest => (rest.dropWhile isPySpace).head? = some ':'
  | none => false

/-- `_strip_think` from both servers: drop `<think>…</think>` blocks, blank
out scaffolding lines such as `Thought: …`, then drop blank lines and strip.
The second `re.sub` is modelled per `\n`-separated line (where `(?m)`
anchors `^`/`$`), its replacement emptying the matched line's content. -/
def strip_think (text : PyStr) : PyStr :=
  if text = [] then text
  else
    let t1 := subThink text
    let t2 := List.intercalate (str "\n")
      ((splitOnNL t1).map (fun ln => if thoughtLine ln then [] else ln))
    let kept := (pySplitlines t2).filter (fun ln => !(pyStrip ln).isEmpty)
    pyStrip (List.intercalate (str "\n") kept)

/-- Whether some suffix of `s` starts (case-insensitively) with `<think>`
and still has a `</think>` at or after the end of that opening tag — that
is, whether `s` contains a complete `<think>…</think>` block. -/
def hasCloseTag : PyStr → Bool
  | [] => false
  | c :: cs => isCIPrefix thinkCloseTag (c :: cs) || hasCloseTag cs

/-- `s` contains a complete case-insensitive `<think>…</think>` block
(possibly spanning newlines). -/
def hasThinkBlock : PyStr → Bool
  | [] => false
  | c :: cs =>
    (isCIPrefix thinkOpenTag (c :: cs) && hasCloseTag (List.drop 7 (c :: cs)))
      || hasThinkBlock cs

/-- A retrieved/loaded LangChain document: its `page_content` and the two
metadata lookups the code performs.  `metaPage` models `meta.get("page")`:
`none` when the key is absent, `some none` when the value is present but
`int(...)` on it raises, `some (some n)` when it converts to the integer
`n`.  `metaSource` models `meta.get("source")` (`d.metadata or {}` already
folded in). -/
structure Doc where
  page_content : PyStr
  metaPage : Option (Option Int)
  metaSource : Option PyStr
deriving DecidableEq

/-- One entry of a response's `sources` list:
`{"source": meta.get("source", "pdf"), "page": page}`. -/
structure SourceEntry where
  source : PyStr
  page : Option Int
deriving DecidableEq

/-- `int(page) + 1 if page is not None else None`, with the `except` branch
also yielding `None`. -/
def pageOfMeta : Option (Option Int) → Option Int
  | none => none
  | some none => none
  | some (some n) => some (n + 1)

/-- The `sources` entry built for one retrieved document. -/
def sourceOfDoc (d : Doc) : SourceEntry :=
  { source := d.metaSource.getD (str "pdf"), page := pageOfMeta d.metaPage }

/-- `int(page) + 1 if page is not None else "?"`, with the `except` branch
also yielding `"?"`, rendered as the string interpolated into the context. -/
def pageHint : Option (Option Int) → PyStr
  | none => str "?"
  | some none => str "?"
  | some (some n) => (toString (n + 1)).data

/-- Python `enumerate(l, start)`. -/
def pyEnumerate (start : Nat) : List α → List (Nat × α)
  | [] => []
  | x :: xs => (start, x) :: pyEnumerate (start + 1) xs

/-- The `parts` list of `_stuff_context`:
`f"[{i}] (p.{page}) {snippet}"` for each document, 1-based. -/
def stuffParts (docs : List Doc) : List PyStr :=
  (pyEnumerate 1 docs).map fun p =>
    str "[" ++ (toString p.1).data ++ str "] (p." ++ pageHint p.2.metaPage
      ++ str ") " ++ pyStrip p.2.page_content

/-- The joined (pre-clipping) context string `"\n\n".join(parts)`. -/
def stuffJoined (docs : List Doc) : PyStr :=
  List.intercalate (str "\n\n") (stuffParts docs)

/-- The truncation marker appended when the context is clipped. -/
def truncationMarker : PyStr := str "\n\n[...context truncated...]"

/-- `_stuff_context` from both servers: join the documents, and clip to the
first `maxChars` characters plus the marker when the join is longer than
`maxChars`.  (`max_chars` is a character budget; the configured value is a
parsed environment variable, positive in every deployment.) -/
def stuff_context (docs : List Doc) (maxChars : Nat) : PyStr :=
  let ctx := stuffJoined docs
  if maxChars < ctx.length then List.take maxChars ctx ++ truncationMarker
  else ctx

/-- `_rag_prompt` from both servers (identical f-string in each). -/
def rag_prompt (context question : PyStr) : PyStr :=
  str "You are a precise assistant. Answer ONLY using the information in the CONTEXT.\nIf the answer is not present, say: \"I don\x27t know based on this PDF.\"\nBe concise (2–15 sentences). Do not include any internal thoughts.\n\nCONTEXT:\n"
    ++ context
    ++ str "\n\nQUESTION:\n"
    ++ question
    ++ str "\n\nANSWER:"

/-- `_session_collection` from both servers:
`f"pdf_{session_id}".lower()`. -/
def session_collection (session_id : PyStr) : PyStr :=
  pyLower (str "pdf_" ++ session_id)

/-! ## State, environment and effects -/

/-- The persistent state both servers manipulate: which sessions have a saved
PDF `<session_id>.pdf` in the upload directory (file names are unique, so
this is a set of session ids), and the Chroma collections together with the
number of chunks each stores. -/
structure RagState where
  files : List PyStr
  collections : List (PyStr × Nat)
deriving DecidableEq

/-- Pure oracles for the external libraries (see the file header). -/
structure Env where
  /-- `Path(file_path).exists()` on the caller-supplied path. -/
  fileExists : PyStr → Bool
  /-- `PyPDFLoader(str(saved_path)).load()`, keyed by the saved file name. -/
  loadPdf : PyStr → List Doc
  /-- `RecursiveCharacterTextSplitter(...).split_documents(docs)`. -/
  splitDocs : List Doc → List Doc
  /-- `vectordb.as_retriever(search_kwargs={"k": k}).get_relevant_documents(q)`
  for an existing collection. -/
  retrieve : PyStr → PyStr → Int → List Doc
  /-- `llm.invoke(prompt)`: `none` models a falsy `result_msg`
  (whence `raw = ""`), `some raw` a message whose `content` is `raw`. -/
  llm : PyStr → Option PyStr
  /-- `uuid.uuid4().hex[:12]`. -/
  freshId : PyStr
  /-- `path.stat().st_size` of a saved PDF, by file name. -/
  statSize : PyStr → Int
  /-- `path.stat().st_ctime` of a saved PDF, by file name. -/
  statCtime : PyStr → Int
  /-- `str(e)` for the exception a failing `_build_vectordb` raises. -/
  buildErr : PyStr → PyStr

/-- The external side effects a handler can perform, in order. -/
inductive Effect where
  /-- `shutil.copy2(file_path, saved_path)` / saving the uploaded stream. -/
  | copyFile (src dst : PyStr)
  /-- `PyPDFLoader(...).load()`. -/
  | loadPdf (path : PyStr)
  /-- `splitter.split_documents(docs)`. -/
  | splitDocs
  /-- `Chroma.from_documents(...)` into the named collection. -/
  | indexChunks (collection : PyStr) (n : Nat)
  /-- `_build_vectordb(collection_name)` (attempted; may raise). -/
  | buildVectordb (collection : PyStr)
  /-- `retriever.get_relevant_documents(question)` with `k`. -/
  | retrieveDocs (collection : PyStr) (k : Int)
  /-- `llm.invoke(prompt)`. -/
  | llmCall
  /-- `pdf_path.unlink()`. -/
  | unlinkFile (path : PyStr)
  /-- `client.delete_collection(collection_name)` (attempted; may raise). -/
  | deleteCollection (collection : PyStr)
  /-- `vectordb._collection.count()` (attempted; may raise). -/
  | countCollection (collection : PyStr)
deriving DecidableEq

/-- Truthiness of `arguments.get(key)` for a string argument: falsy when the
key is absent or the value is the empty string (`if not session_id: ...`). -/
def pyFalsy : Option PyStr → Bool
  | none => true
  | some s => s.isEmpty

/-- Look up a collection's stored chunk count by name. -/
def lookupCollection : List (PyStr × Nat) → PyStr → Option Nat
  | [], _ => none
  | (c, n) :: rest, coll => if c = coll then some n else lookupCollection rest coll

/-- `Chroma.from_documents` into `coll`: the session's collection now stores
the `n` indexed chunks (created, or replaced for a re-used session id). -/
def setCollection : List (PyStr × Nat) → PyStr → Nat → List (PyStr × Nat)
  | [], coll, n => [(coll, n)]
  | (c, m) :: rest, coll, n =>
    if c = coll then (coll, n) :: rest else (c, m) :: setCollection rest coll n

/-- `client.delete_collection(coll)`: remove the named collection (file/
collection names are unique keys). -/
def removeCollection : List (PyStr × Nat) → PyStr → List (PyStr × Nat)
  | [], _ => []
  | (c, m) :: rest, coll =>
    if c = coll then removeCollection rest coll else (c, m) :: removeCollection rest coll

/-- Saving `<sid>.pdf` into the upload directory (overwrites any old file). -/
def addFile (files : List PyStr) (sid : PyStr) : List PyStr :=
  if sid ∈ files then files else sid :: files

/-- `pdf_path.unlink()`: the file named `<sid>.pdf` is gone afterwards. -/
def removeFile : List PyStr → PyStr → List PyStr
  | [], _ => []
  | f :: rest, sid => if f = sid then removeFile rest sid else f :: removeFile rest sid

/-! ## Configuration

The MCP server parses these from environment variables; the values below are
the shipped defaults (the HTTP server hard-codes the same numbers). -/

/-- `TOP_K_DEFAULT`. -/
def TOP_K_DEFAULT : Int := 4

/-- `MAX_CONTEXT_CHARS`. -/
def MAX_CONTEXT_CHARS : Nat := 8000

/-! ## MCP tool handlers (`call_tool` branches of `src/mcp-rag-server/server.py`) -/

/-- The JSON payload of the `upload_document` branch. -/
inductive UploadResult where
  /-- `{"error": msg}`. -/
  | err (msg : PyStr)
  /-- `{"success": true, "session_id": ..., "message": ..., "chunks_indexed": ..., "pages": ...}`. -/
  | ok (session_id : PyStr) (message : PyStr) (chunks_indexed : Nat) (pages : Nat)
deriving DecidableEq

/-- The JSON payload of the `query_document` branch. -/
inductive QueryResult where
  /-- `{"error": msg}`. -/
  | err (msg : PyStr)
  /-- `{"error": msg, "details": details}`. -/
  | errDetails (msg details : PyStr)
  /-- `{"answer": ...}` plus `"sources"` exactly when present. -/
  | answer (ans : PyStr) (sources : Option (List SourceEntry))
deriving DecidableEq

/-- The JSON payload of the `delete_session` branch. -/
inductive DeleteResult where
  /-- `{"error": msg}` (missing argument). -/
  | err (msg : PyStr)
  /-- `{"success": true, "session_id": ..., "deleted_components": ...}`. -/
  | ok (session_id : PyStr) (deleted_components : List PyStr)
  /-- `{"success": false, "error": msg}`. -/
  | failure (msg : PyStr)
deriving DecidableEq

/-- The JSON payload of the `get_session_info` branch. -/
inductive InfoResult where
  /-- `{"error": msg}`. -/
  | err (msg : PyStr)
  /-- The session-info object; `chunks_indexed` is `none` for the JSON
  `null` written when counting the collection raises. -/
  | ok (session_id : PyStr) (file_name : PyStr) (file_size_bytes : Int)
      (created_timestamp : Int) (chunks_indexed : Option Nat)
      (collection_name : PyStr)
deriving DecidableEq

/-- The arguments of a `query_document` call, each `arguments.get(...)`. -/
structure QueryArgs where
  session_id : Option PyStr
  question : Option PyStr
  top_k : Option Int
  include_sources : Option Bool

/-- The `upload_document` branch of `call_tool`.  `file_path` and the
optional custom `session_id` are the `arguments.get(...)` values.  The PDF
is copied to `<sid>.pdf` in the upload directory before it is loaded, so a
load/split failure still leaves the file saved. -/
def upload_document (env : Env) (st : RagState)
    (file_path : Option PyStr) (custom_session_id : Option PyStr) :
    UploadResult × RagState × List Effect :=
  if pyFalsy file_path then (.err (str "file_path is required"), st, [])
  else
    let fp := file_path.getD []
    if !env.fileExists fp then (.err (str "File not found: " ++ fp), st, [])
    else if !(str ".pdf").isSuffixOf (pyLower fp) then
      (.err (str "Only PDF files are supported"), st, [])
    else
      let sid := if pyFalsy custom_session_id then env.freshId
                 else custom_session_id.getD []
      let savedName := sid ++ str ".pdf"
      let st1 : RagState := { st with files := addFile st.files sid }
      let docs := env.loadPdf savedName
      if docs.isEmpty then
        (.err (str "No content found in the PDF"), st1,
          [.copyFile fp savedName, .loadPdf savedName])
      else
        let chunks := env.splitDocs docs
        if chunks.isEmpty then
          (.err (str "Could not split the PDF into chunks"), st1,
            [.copyFile fp savedName, .loadPdf savedName, .splitDocs])
        else
          let coll := session_collection sid
          let st2 : RagState :=
            { st1 with collections := setCollection st1.collections coll chunks.length }
          (.ok sid (str "PDF uploaded and indexed successfully") chunks.length docs.length,
            st2,
            [.copyFile fp savedName, .loadPdf savedName, .splitDocs,
              .indexChunks coll chunks.length])

/-- The `query_document` branch of `call_tool`.  `_build_vectordb` raises
exactly when the session's collection is absent, which the handler turns
into the not-found payload. -/
def query_document (env : Env) (st : RagState) (args : QueryArgs) :
    QueryResult × RagState × List Effect :=
  let question := pyStrip (args.question.getD [])
  let top_k := args.top_k.getD TOP_K_DEFAULT
  let include_sources := args.include_sources.getD true
  if pyFalsy args.session_id then (.err (str "session_id is required"), st, [])
  else if question.isEmpty then (.err (str "question is required"), st, [])
  else
    let sid := args.session_id.getD []
    let coll := session_collection sid
    match lookupCollection st.collections coll with
    | none =>
      (.errDetails (str "Session not found: " ++ sid ++ str ". Upload a PDF first.")
          (env.buildErr coll),
        st, [.buildVectordb coll])
    | some _ =>
      let docs := env.retrieve coll question top_k
      if docs.isEmpty then
        (.answer (str "I couldn\x27t find content related to that question in this PDF.")
            (some []),
          st, [.buildVectordb coll, .retrieveDocs coll top_k])
      else
        let context_text := stuff_context docs MAX_CONTEXT_CHARS
        let prompt := rag_prompt context_text question
        let raw := (env.llm prompt).getD []
        let ans := strip_think raw
        let sources := if include_sources then some (docs.map sourceOfDoc) else none
        (.answer ans sources,
          st, [.buildVectordb coll, .retrieveDocs coll top_k, .llmCall])

/-- The `delete_session` branch of `call_tool`: unlink the saved PDF when it
exists, then (independently) attempt to delete the Chroma collection, which
succeeds exactly when the collection exists; report what was deleted, in
that order. -/
def delete_session (st : RagState) (session_id : Option PyStr) :
    DeleteResult × RagState × List Effect :=
  if pyFalsy session_id then (.err (str "session_id is required"), st, [])
  else
    let sid := session_id.getD []
    let coll := session_collection sid
    let fileExisted := sid ∈ st.files
    let collExisted := (lookupCollection st.collections coll).isSome
    let deleted : List PyStr :=
      (if fileExisted then [str "pdf_file"] else [])
        ++ (if collExisted then [str "vector_index"] else [])
    let st' : RagState :=
      { files := removeFile st.files sid,
        collections := removeCollection st.collections coll }
    let fx : List Effect :=
      (if fileExisted then [.unlinkFile (sid ++ str ".pdf")] else [])
        ++ [.deleteCollection coll]
    if deleted.isEmpty then
      (.failure (str "Session not found: " ++ sid), st', fx)
    else (.ok sid deleted, st', fx)

/-- The `get_session_info` branch of `call_tool`: not-found when the saved
PDF is absent; otherwise report the file's stat fields and the collection's
chunk count (`null` when building/counting the collection raises, i.e. when
the collection is absent). -/
def get_session_info (env : Env) (st : RagState) (session_id : Option PyStr) :
    InfoResult × RagState × List Effect :=
  if pyFalsy session_id then (.err (str "session_id is required"), st, [])
  else
    let sid := session_id.getD []
    if sid ∉ st.files then (.err (str "Session not found: " ++ sid), st, [])
    else
      let coll := session_collection sid
      let fileName := sid ++ str ".pdf"
      (.ok sid fileName (env.statSize fileName) (env.statCtime fileName)
          (lookupCollection st.collections coll) coll,
        st, [.countCollection coll])

/-! ## HTTP handlers (`src/GianPDF/model deployment/server.py`) -/

/-- A raised `HTTPException(status_code, detail)`. -/
structure HTTPError where
  status : Nat
  detail : PyStr
deriving DecidableEq

/-- Handler outcomes (`Except`) can be compared for the concrete runs below. -/
instance {ε α : Type} [DecidableEq ε] [DecidableEq α] : DecidableEq (Except ε α) :=
  fun x y =>
    match x, y with
    | .error e, .error e' =>
      if h : e = e' then .isTrue (by rw [h]) else .isFalse (by simp [h])
    | .ok a, .ok a' =>
      if h : a = a' then .isTrue (by rw [h]) else .isFalse (by simp [h])
    | .error _, .ok _ => .isFalse (by simp)
    | .ok _, .error _ => .isFalse (by simp)

/-- The success body of `POST /upload`. -/
structure UploadOk where
  ok : Bool
  session_id : PyStr
  message : PyStr
  chunks_indexed : Nat
deriving DecidableEq

/-- The `debug` entry of a `POST /ask` response body: the key may be absent
from the dict, present with value `None` (serialised as JSON `null`), or
present with a payload `{"retrieved": ..., "context_preview"?: ...}`. -/
inductive DebugField where
  | absent
  | nullVal
  | payload (retrieved : Nat) (context_preview : Option PyStr)
deriving DecidableEq

/-- The success body of `POST /ask`. -/
structure AskOk where
  answer : PyStr
  sources : List SourceEntry
  debug : DebugField
deriving DecidableEq

/-- The pydantic `AskRequest` model
(`question: str`, `session_id: str`, `top_k: int | None`, `debug: bool | None`). -/
structure AskReq where
  question : PyStr
  session_id : PyStr
  top_k : Option Int
  debug : Option Bool

/-- `POST /upload` (`upload_pdf`): reject non-`.pdf` filenames, save the
stream under a fresh session id, load, chunk and index it. -/
def upload_pdf (env : Env) (st : RagState) (filename : PyStr) :
    Except HTTPError UploadOk × RagState × List Effect :=
  if !(str ".pdf").isSuffixOf (pyLower filename) then
    (.error ⟨400, str "Please upload a PDF file."⟩, st, [])
  else
    let sid := env.freshId
    let savedName := sid ++ str ".pdf"
    let st1 : RagState := { st with files := addFile st.files sid }
    let docs := env.loadPdf savedName
    if docs.isEmpty then
      (.error ⟨400, str "No content found in the PDF."⟩, st1,
        [.copyFile filename savedName, .loadPdf savedName])
    else
      let chunks := env.splitDocs docs
      if chunks.isEmpty then
        (.error ⟨400, str "Could not split the PDF into chunks."⟩, st1,
          [.copyFile filename savedName, .loadPdf savedName, .splitDocs])
      else
        let coll := session_collection sid
        let st2 : RagState :=
          { st1 with collections := setCollection st1.collections coll chunks.length }
        (.ok ⟨true, sid, str "PDF uploaded and indexed successfully.", chunks.length⟩,
          st2,
          [.copyFile filename savedName, .loadPdf savedName, .splitDocs,
            .indexChunks coll chunks.length])

/-- `POST /ask` (`ask`): 400 on an empty (stripped) question, 404 when the
session's collection is absent (`_build_vectordb` raises), otherwise
retrieve (`req.top_k or TOP_K_DEFAULT`, so `0` also falls back), prompt the
LLM and shape the answer.  On the no-documents branch the returned dict
always contains a `debug` key (`None` unless the request set debug); on the
main branch the key is added only when the request set debug. -/
def ask (env : Env) (st : RagState) (req : AskReq) :
    Except HTTPError AskOk × RagState × List Effect :=
  let q := pyStrip req.question
  if q.isEmpty then (.error ⟨400, str "Question is empty."⟩, st, [])
  else
    let coll := session_collection req.session_id
    match lookupCollection st.collections coll with
    | none =>
      (.error ⟨404, str "Session not found. Upload a PDF first."⟩, st,
        [.buildVectordb coll])
    | some _ =>
      let k := match req.top_k with
               | some t => if t = 0 then TOP_K_DEFAULT else t
               | none => TOP_K_DEFAULT
      let isD := req.debug.getD false
      let docs := env.retrieve coll q k
      if docs.isEmpty then
        (.ok ⟨str "I couldn\x27t find content related to that question in this PDF.",
            [], if isD then .payload 0 none else .nullVal⟩,
          st, [.buildVectordb coll, .retrieveDocs coll k])
      else
        let context_text := stuff_context docs MAX_CONTEXT_CHARS
        let prompt := rag_prompt context_text q
        let raw := (env.llm prompt).getD []
        let answer := strip_think raw
        let sources := docs.map sourceOfDoc
        let d := if isD then DebugField.payload docs.length (some (List.take 400 context_text))
                 else .absent
        (.ok ⟨answer, sources, d⟩,
          st, [.buildVectordb coll, .retrieveDocs coll k, .llmCall])

/-! ## Helper lemmas -/

theorem mem_addFile_self (files : List PyStr) (sid : PyStr) : sid ∈ addFile files sid := by
  unfold addFile
  split
  · assumption
  · exact List.mem_cons_self sid files

theorem not_mem_removeFile_self (files : List PyStr) (sid : PyStr) :
    sid ∉ removeFile files sid := by
  induction files with
  | nil => simp [removeFile]
  | cons f rest ih =>
    simp only [removeFile]
    split
    · exact ih
    · rename_i hne
      simp only [List.mem_cons, not_or]
      exact ⟨fun h => hne h.symm, ih⟩

theorem lookupCollection_setCollection_self (cols : List (PyStr × Nat)) (coll : PyStr) (n : Nat) :
    lookupCollection (setCollection cols coll n) coll = some n := by
  induction cols with
  | nil => simp [setCollection, lookupCollection]
  | cons p rest ih =>
    obtain ⟨c, m⟩ := p
    simp only [setCollection]
    split
    · simp [lookupCollection]
    · simp [lookupCollection, *]

/-! ## The claims -/

/-- **C10.** For every list of retrieved documents and every positive
`max_chars` bound, the context string produced by `_stuff_context` has
length at most `max_chars` plus the length of the fixed truncation marker
`"\n\n[...context truncated...]"`; when the joined context already fits
within `max_chars` it is returned unmodified, and otherwise it is the first
`max_chars` characters followed by the marker. -/
theorem c10_stuff_context_clip (docs : List Doc) (maxChars : Nat) (_hpos : 0 < maxChars) :
    (stuff_context docs maxChars).length ≤ maxChars + truncationMarker.length ∧
    ((stuffJoined docs).length ≤ maxChars → stuff_context docs maxChars = stuffJoined docs) ∧
    (maxChars < (stuffJoined docs).length →
      stuff_context docs maxChars
        = List.take maxChars (stuffJoined docs) ++ truncationMarker) := by
  by_cases h : maxChars < (stuffJoined docs).length
  · refine ⟨?_, fun hle => absurd h (by omega), fun _ => ?_⟩
    · simp only [stuff_context, if_pos h, List.length_append, List.length_take]
      omega
    · simp only [stuff_context, if_pos h]
  · refine ⟨?_, fun _ => ?_, fun hlt => absurd hlt h⟩
    · simp only [stuff_context, if_neg h]
      omega
    · simp only [stuff_context, if_neg h]

/-- Witness for C10 at `docs = []`, `max_chars = 5`. -/
theorem c10_stuff_context_clip_witness : stuff_context [] 5 = stuffJoined [] :=
  (c10_stuff_context_clip [] 5 (by decide)).2.1 (by decide)

/-- **C4, counterexample.** The session ids `"A"` and `"a"` are distinct, yet
`_session_collection` derives the same collection name for both (the claim's
"distinct session ids are associated with distinct collections" fails). -/
theorem c4_counterexample :
    session_collection (str "A") = session_collection (str "a") ∧ str "A" ≠ str "a" := by
  decide

/-- **C4, amended.** Every operation derives the vector collection for a
session as the string `"pdf_" + session_id` converted to lower case (the
definition `session_collection`, used by all handlers above); this map is
injective on session ids that are already lower-case, but ids differing
only in letter case share a collection, so the association is not 1:1 on
arbitrary ids. -/
theorem c4_collection_naming :
    (∀ sid : PyStr, session_collection sid = pyLower (str "pdf_" ++ sid)) ∧
    (∀ s₁ s₂ : PyStr, pyLower s₁ = s₁ → pyLower s₂ = s₂ →
      session_collection s₁ = session_collection s₂ → s₁ = s₂) := by
  refine ⟨fun sid => rfl, fun s₁ s₂ h₁ h₂ h => ?_⟩
  have h' : pyLower (str "pdf_") ++ pyLower s₁ = pyLower (str "pdf_") ++ pyLower s₂ := by
    simpa [session_collection, pyLower, List.map_append] using h
  have := List.append_cancel_left h'
  rw [h₁, h₂] at this
  exact this

/-- Witness for C4 (amended) at the lower-case id `"ab"`. -/
theorem c4_collection_naming_witness :
    session_collection (str "ab") = pyLower (str "pdf_" ++ str "ab") ∧ str "ab" = str "ab" :=
  ⟨c4_collection_naming.1 (str "ab"),
   c4_collection_naming.2 (str "ab") (str "ab") (by decide) (by decide) (by decide)⟩

/-- A concrete environment used to instantiate the theorems below: every
external call succeeds, one page loads, splitting is the identity,
retrieval finds one chunk, and the LLM replies with a fixed string. -/
def envW : Env where
  fileExists := fun _ => true
  loadPdf := fun _ => [⟨str "page one text", some (some 0), some (str "a.pdf")⟩]
  splitDocs := fun ds => ds
  retrieve := fun _ _ _ => [⟨str "relevant chunk", some (some 0), some (str "a.pdf")⟩]
  llm := fun _ => some (str "<thi<think>x</think>nk>y</think>")
  freshId := str "abc"
  statSize := fun _ => 1024
  statCtime := fun _ => 0
  buildErr := fun _ => str "collection missing"

/-- `envW` with a retriever that finds nothing. -/
def envNoDocs : Env := { envW with retrieve := fun _ _ _ => [] }

/-- **C1.** For every session id for which no collection exists (no PDF was
ever uploaded for it), `query_document` with that session id and a
non-empty question returns the not-found error payload
`"Session not found: <session_id>. Upload a PDF first."` (an error payload,
not an answer payload), and HTTP `POST /ask` with that session id raises a
404 `"Session not found. Upload a PDF first."` error.  (An id or question
that is empty — after `strip()` for the question — takes the
missing-argument validation path instead, so the claim's scenario is
`sid ≠ ""` and a question with content.) -/
theorem c1_query_nonexistent_session (env : Env) (st : RagState) (sid q : PyStr)
    (hsid : sid ≠ []) (hq : pyStrip q ≠ [])
    (hcoll : lookupCollection st.collections (session_collection sid) = none) :
    (query_document env st ⟨some sid, some q, none, none⟩).1 =
      QueryResult.errDetails
        (str "Session not found: " ++ sid ++ str ". Upload a PDF first.")
        (env.buildErr (session_collection sid)) ∧
    (ask env st ⟨q, sid, none, none⟩).1 =
      Except.error ⟨404, str "Session not found. Upload a PDF first."⟩ := by
  constructor
  · simp [query_document, pyFalsy, hsid, hq, hcoll]
  · simp [ask, hq, hcoll]

/-- Witness for C1: the empty state has no collection for session `"s"`. -/
theorem c1_query_nonexistent_session_witness :
    (query_document envW ⟨[], []⟩ ⟨some (str "s"), some (str "q"), none, none⟩).1 =
      QueryResult.errDetails
        (str "Session not found: " ++ str "s" ++ str ". Upload a PDF first.")
        (envW.buildErr (session_collection (str "s"))) ∧
    (ask envW ⟨[], []⟩ ⟨str "q", str "s", none, none⟩).1 =
      Except.error ⟨404, str "Session not found. Upload a PDF first."⟩ :=
  c1_query_nonexistent_session envW ⟨[], []⟩ (str "s") (str "q")
    (by decide) (by decide) (by decide)

/-- **C2.** If `delete_session` returns a success result for a session id,
then `get_session_info` for the same session id on the resulting state
(no intervening upload) returns the error payload
`"Session not found: <session_id>"`. -/
theorem c2_delete_then_info_not_found (env : Env) (st st' : RagState)
    (sidArg : Option PyStr) (sid : PyStr) (deleted : List PyStr) (fx : List Effect)
    (h : delete_session st sidArg = (DeleteResult.ok sid deleted, st', fx)) :
    (get_session_info env st' sidArg).1 =
      InfoResult.err (str "Session not found: " ++ sid) := by
  simp only [delete_session] at h
  repeat' split at h
  all_goals simp at h
  all_goals obtain ⟨⟨hsid, -⟩, hst, -⟩ := h
  all_goals subst hsid
  all_goals subst hst
  all_goals simp [get_session_info, not_mem_removeFile_self, *]

/-- Witness for C2: deleting session `"s"` from a state holding its file and
collection, then asking for its info. -/
theorem c2_delete_then_info_not_found_witness :
    (get_session_info envW ⟨[], []⟩ (some (str "s"))).1 =
      InfoResult.err (str "Session not found: " ++ str "s") :=
  c2_delete_then_info_not_found envW ⟨[str "s"], [(str "pdf_s", 2)]⟩ ⟨[], []⟩
    (some (str "s")) (str "s") [str "pdf_file", str "vector_index"]
    [Effect.unlinkFile (str "s" ++ str ".pdf"),
      Effect.deleteCollection (session_collection (str "s"))]
    (by decide)

/-- **C3.** A successful `upload_document` for session `s` reporting
`chunks_indexed = n` is followed by a `get_session_info` for `s` (on the
post-upload state) that reports the same `chunks_indexed = n` (together
with the saved file's name and stat fields and the derived collection
name). -/
theorem c3_upload_then_info_chunk_count (env : Env) (st st' : RagState)
    (fpArg custom : Option PyStr) (sid msg : PyStr) (n pages : Nat) (fx : List Effect)
    (h : upload_document env st fpArg custom = (UploadResult.ok sid msg n pages, st', fx))
    (hsid : sid ≠ []) :
    (get_session_info env st' (some sid)).1 =
      InfoResult.ok sid (sid ++ str ".pdf") (env.statSize (sid ++ str ".pdf"))
        (env.statCtime (sid ++ str ".pdf")) (some n) (session_collection sid) := by
  simp only [upload_document] at h
  repeat' split at h
  all_goals simp at h
  all_goals obtain ⟨⟨hsid', -, hn, -⟩, hst, -⟩ := h
  all_goals subst hsid'
  all_goals subst hst
  all_goals subst hn
  all_goals simp [get_session_info, pyFalsy, hsid, mem_addFile_self,
    lookupCollection_setCollection_self]

/-- Witness for C3: uploading `doc.pdf` into the empty state yields session
`"abc"` with one chunk, and `get_session_info` reports that count. -/
theorem c3_upload_then_info_chunk_count_witness :
    (get_session_info envW ⟨[str "abc"], [(str "pdf_abc", 1)]⟩ (some (str "abc"))).1 =
      InfoResult.ok (str "abc") (str "abc" ++ str ".pdf")
        (envW.statSize (str "abc" ++ str ".pdf"))
        (envW.statCtime (str "abc" ++ str ".pdf")) (some 1)
        (session_collection (str "abc")) :=
  c3_upload_then_info_chunk_count envW ⟨[], []⟩ ⟨[str "abc"], [(str "pdf_abc", 1)]⟩
    (some (str "doc.pdf")) none (str "abc")
    (str "PDF uploaded and indexed successfully") 1 1
    [Effect.copyFile (str "doc.pdf") (str "abc" ++ str ".pdf"),
      Effect.loadPdf (str "abc" ++ str ".pdf"), Effect.splitDocs,
      Effect.indexChunks (str "pdf_abc") 1]
    (by decide) (by decide)

/-- The `deleted_components` list of a `delete_session` payload (empty for
the non-success payloads, which carry none). -/
def deletedComponents : DeleteResult → List PyStr
  | .ok _ d => d
  | _ => []

/-- Whether a `delete_session` payload has `"success": true`. -/
def deleteSucceeded : DeleteResult → Bool
  | .ok _ _ => true
  | _ => false

/-- **C5.** For a `delete_session` call carrying a session id, the result's
`deleted_components` contains exactly what was removed: `"pdf_file"` iff
the saved `<session_id>.pdf` existed (and was unlinked), `"vector_index"`
iff the collection delete succeeded (iff the collection existed); the
result is a success iff at least one component was deleted, and otherwise
is the failure payload `"Session not found: <session_id>"`; and the state
update to each of the two stores happens independently of the other
(the file is gone and the collection is gone, unconditionally). -/
theorem c5_delete_components (st : RagState) (sid : PyStr) (hsid : sid ≠ []) :
    (str "pdf_file" ∈ deletedComponents (delete_session st (some sid)).1 ↔
      sid ∈ st.files) ∧
    (str "vector_index" ∈ deletedComponents (delete_session st (some sid)).1 ↔
      (lookupCollection st.collections (session_collection sid)).isSome = true) ∧
    (deleteSucceeded (delete_session st (some sid)).1 = true ↔
      deletedComponents (delete_session st (some sid)).1 ≠ []) ∧
    (deletedComponents (delete_session st (some sid)).1 = [] →
      (delete_session st (some sid)).1
        = DeleteResult.failure (str "Session not found: " ++ sid)) ∧
    ((delete_session st (some sid)).2.1
      = ⟨removeFile st.files sid, removeCollection st.collections (session_collection sid)⟩) := by
  have hnotfalsy : pyFalsy (some sid) = false := by
    simp [pyFalsy, hsid]
  by_cases hf : sid ∈ st.files <;>
    by_cases hc : (lookupCollection st.collections (session_collection sid)).isSome = true <;>
    simp [delete_session, hnotfalsy, hf, hc, deletedComponents, deleteSucceeded] <;>
    decide

/-- Witness for C5 on a state holding session `"s"`'s file and collection. -/
theorem c5_delete_components_witness :
    str "pdf_file" ∈
        deletedComponents (delete_session ⟨[str "s"], [(str "pdf_s", 2)]⟩ (some (str "s"))).1 ↔
      str "s" ∈ (⟨[str "s"], [(str "pdf_s", 2)]⟩ : RagState).files :=
  (c5_delete_components ⟨[str "s"], [(str "pdf_s", 2)]⟩ (str "s") (by decide)).1

/-- **C7.** Every tool call missing a required field — `upload_document`
without `file_path`; `query_document` without `session_id` or with a
question that is empty after `strip()`; `delete_session` or
`get_session_info` without `session_id` — returns an error payload naming
the missing field, leaves the upload directory and vector store unchanged,
and performs no external-library call (empty effect list).  (A field whose
value is the empty string is "missing" too: the code tests truthiness.) -/
theorem c7_missing_field_validation (env : Env) (st : RagState) :
    (∀ fpArg custom, pyFalsy fpArg = true →
      upload_document env st fpArg custom
        = (.err (str "file_path is required"), st, [])) ∧
    (∀ args : QueryArgs, pyFalsy args.session_id = true →
      query_document env st args = (.err (str "session_id is required"), st, [])) ∧
    (∀ args : QueryArgs, pyFalsy args.session_id = false →
      pyStrip (args.question.getD []) = [] →
      query_document env st args = (.err (str "question is required"), st, [])) ∧
    (∀ sidArg, pyFalsy sidArg = true →
      delete_session st sidArg = (.err (str "session_id is required"), st, [])) ∧
    (∀ sidArg, pyFalsy sidArg = true →
      get_session_info env st sidArg = (.err (str "session_id is required"), st, [])) := by
  refine ⟨fun fpArg custom hmiss => ?_, fun args hmiss => ?_, fun args hsid hq => ?_,
    fun sidArg hmiss => ?_, fun sidArg hmiss => ?_⟩
  · simp [upload_document, hmiss]
  · simp [query_document, hmiss]
  · simp [query_document, hsid, hq]
  · simp [delete_session, hmiss]
  · simp [get_session_info, hmiss]

/-- Witness for C7: `upload_document` with no `file_path` argument. -/
theorem c7_missing_field_validation_witness :
    upload_document envW ⟨[], []⟩ none none
      = (.err (str "file_path is required"), ⟨[], []⟩, []) :=
  (c7_missing_field_validation envW ⟨[], []⟩).1 none none (by decide)

/-- **C8, counterexample.** A `POST /ask` that succeeds on the
no-relevant-documents branch with `debug` unset still returns a body
containing a `debug` field (with value `null`) — the claim's "debug field
present only when the request set debug" fails. -/
theorem c8_counterexample :
    (ask envNoDocs ⟨[str "s"], [(str "pdf_s", 2)]⟩ ⟨str "q", str "s", none, none⟩).1 =
      Except.ok
        ⟨str "I couldn\x27t find content related to that question in this PDF.",
          [], DebugField.nullVal⟩ ∧
    DebugField.nullVal ≠ DebugField.absent := by
  decide

/-- **C8, amended.** On success, `POST /upload` returns a body with
`ok = true`, the fresh `session_id`, and `chunks_indexed` equal to the
number of chunks split from the loaded PDF; and a successful `POST /ask`
returns a body with `answer` and `sources`, whose `debug` field is present
only when the request set debug — except on the no-relevant-documents
branch, where a `debug` key is always present (`null` when debug was not
set, and that branch has empty `sources`). -/
theorem c8_response_shapes (env : Env) (st : RagState) :
    (∀ u st' fx fn, upload_pdf env st fn = (Except.ok u, st', fx) →
      u.ok = true ∧ u.session_id = env.freshId ∧
      u.chunks_indexed
        = (env.splitDocs (env.loadPdf (env.freshId ++ str ".pdf"))).length) ∧
    (∀ req a st' fx, ask env st req = (Except.ok a, st', fx) →
      (req.debug.getD false = false →
        a.debug = .absent ∨ (a.debug = .nullVal ∧ a.sources = [])) ∧
      (req.debug.getD false = true →
        ∃ r p, a.debug = .payload r p)) := by
  constructor
  · intro u st' fx fn h
    simp only [upload_pdf] at h
    repeat' split at h
    all_goals simp at h
    obtain ⟨hu, -, -⟩ := h
    subst hu
    exact ⟨rfl, rfl, rfl⟩
  · intro req a st' fx h
    simp only [ask] at h
    repeat' split at h
    all_goals simp at h
    all_goals obtain ⟨ha, -, -⟩ := h
    all_goals subst ha
    all_goals constructor <;> intro hd <;> simp_all

/-- Witness for C8 (amended): the concrete no-documents run of
`c8_counterexample` lands in the "debug key present as null" disjunct. -/
theorem c8_response_shapes_witness :
    DebugField.nullVal = DebugField.absent ∨
      (DebugField.nullVal = DebugField.nullVal ∧ ([] : List SourceEntry) = []) :=
  ((c8_response_shapes envNoDocs ⟨[str "s"], [(str "pdf_s", 2)]⟩).2
      ⟨str "q", str "s", none, none⟩
      ⟨str "I couldn\x27t find content related to that question in this PDF.",
        [], DebugField.nullVal⟩
      ⟨[str "s"], [(str "pdf_s", 2)]⟩
      [Effect.buildVectordb (session_collection (str "s")),
        Effect.retrieveDocs (session_collection (str "s")) TOP_K_DEFAULT]
      (by decide)).1 (by decide)

/-- **C9, counterexample.** With the raw LLM response
`"<thi<think>x</think>nk>y</think>"`, one pass of the non-greedy
substitution removes `"<think>x</think>"` and splices the surroundings into
`"<think>y</think>"`, so the answer `query_document` returns still contains
a complete `<think>…</think>` block — the claim's "contains no complete
block" fails. -/
theorem c9_counterexample :
    (query_document envW ⟨[str "s"], [(str "pdf_s", 2)]⟩
        ⟨some (str "s"), some (str "q"), none, none⟩).1 =
      QueryResult.answer (str "<think>y</think>") (some [⟨str "a.pdf", some 1⟩]) ∧
    hasThinkBlock (str "<think>y</think>") = true := by
  decide

/-- **C9, amended.** Whenever `query_document` or `POST /ask` answers via
the LLM (the effect list records an LLM call), the answer returned to the
caller is exactly the post-processed result `_strip_think` of the raw LLM
response to the prompt; the single left-to-right substitution pass removes
every leftmost non-overlapping `<think>…</think>` match, but the returned
answer can still contain a complete block when a removal splices
surrounding tag fragments together (see the counterexample). -/
theorem c9_answer_postprocessing (env : Env) (st : RagState) :
    (∀ args ans sources st' fx,
      query_document env st args = (QueryResult.answer ans sources, st', fx) →
      Effect.llmCall ∈ fx →
      ∃ prompt, ans = strip_think ((env.llm prompt).getD [])) ∧
    (∀ req a st' fx,
      ask env st req = (Except.ok a, st', fx) →
      Effect.llmCall ∈ fx →
      ∃ prompt, a.answer = strip_think ((env.llm prompt).getD [])) := by
  constructor
  · intro args ans sources st' fx h hllm
    simp only [query_document] at h
    repeat' split at h
    all_goals simp at h
    all_goals obtain ⟨⟨hans, -⟩, -, hfx⟩ := h
    all_goals subst hfx
    all_goals first
      | exact ⟨_, hans.symm⟩
      | exact absurd hllm (by simp)
  · intro req a st' fx h hllm
    simp only [ask] at h
    repeat' split at h
    all_goals simp at h
    all_goals obtain ⟨ha, -, hfx⟩ := h
    all_goals subst hfx
    all_goals subst ha
    all_goals first
      | exact ⟨_, rfl⟩
      | exact absurd hllm (by simp)

/-- Witness for C9 (amended): the concrete run of `c9_counterexample` has
its answer equal to `_strip_think` of the raw LLM response. -/
theorem c9_answer_postprocessing_witness :
    ∃ prompt, str "<think>y</think>" = strip_think ((envW.llm prompt).getD []) :=
  (c9_answer_postprocessing envW ⟨[str "s"], [(str "pdf_s", 2)]⟩).1
    ⟨some (str "s"), some (str "q"), none, none⟩ (str "<think>y</think>")
    (some [⟨str "a.pdf", some 1⟩]) ⟨[str "s"], [(str "pdf_s", 2)]⟩
    [Effect.buildVectordb (session_collection (str "s")),
      Effect.retrieveDocs (session_collection (str "s")) TOP_K_DEFAULT,
      Effect.llmCall]
    (by decide) (by decide)

end RagServer

